import Mathlib

/-!
Verification of the image-forensics pipeline of the `image_fact_check`
application (source files `forensic_analysis.py` and `utils.py`).

Modelling conventions used throughout this development:

* A pixel buffer is the grayscale rational matrix `Mat` (height, width and a
  pixel function).  The RGB→gray conversion performed by the detectors is a
  library call (`cv2.cvtColor`) and happens before the statistics the claims
  talk about; the embedding therefore works directly on the gray buffer.
* Opaque library operations (the JPEG re-encoding used by Error-Level
  Analysis, the cv2/scipy bodies of the other detectors, PIL image decoding)
  are parameters of type `… → Except String _`.  An `Except.error` models a
  Python exception raised inside the corresponding body; the surrounding
  `try/except` of each source function is embedded explicitly.
* Python floats are modelled by exact rationals.  `np.std` occurs in the
  modelled source only inside comparisons against non-negative quantities, so
  the embedding carries the variance (`std²`) and compares against the squared
  bound: for `a, b ≥ 0`, `√a > b ↔ a > b²`, an exact translation.
* `np.mean` of an empty slice is NaN under numpy (with the RuntimeWarning
  suppressed at module level); the rational model returns `0` there.  Every
  theorem below only exercises buffers whose 3×3 regions are non-empty
  (`h ≥ 3`, `w ≥ 3`) or results that do not depend on those means, so the
  artefact is never load-bearing.
-/

namespace ImageFactCheck

/-- Grayscale pixel buffer: the numpy array every detector consumes.
`pix y x` is the intensity sample at row `y`, column `x`. -/
structure Mat where
  h : ℕ
  w : ℕ
  pix : ℕ → ℕ → ℚ

/-- Raw encoded image bytes, as handed to `comprehensive_forensic_analysis`. -/
abbrev ByteStream := List ℕ

/-- The part of a detector's result dictionary that the aggregator consumes:
the `suspicious` flag, the optional `error` marker set by the detector's
`except` clause, and the `skipped` marker set by the large-image policy of the
advanced copy-move detector.  Numeric metric entries of the dictionaries are
modelled only where a claim depends on them (see `ElaSignal`). -/
structure DetectorSignal where
  suspicious : Bool
  error : Option String := none
  skipped : Bool := false
deriving DecidableEq

/-- `np.mean` of a list of samples (population mean).  Division by zero (the
empty slice, NaN under numpy) yields `0` in the rational model. -/
def meanList (xs : List ℚ) : ℚ := xs.sum / xs.length

/-- `np.var` of a list of samples (population variance, numpy's default
`ddof = 0`); equals `np.std` squared. -/
def varList (xs : List ℚ) : ℚ :=
  ((xs.map (fun x => (x - meanList xs) ^ 2)).sum) / xs.length

/-- The samples of the rectangular slice `arr[y1:y2, x1:x2]`, row major. -/
def rectVals (f : ℕ → ℕ → ℚ) (y1 y2 x1 x2 : ℕ) : List ℚ :=
  (List.range (y2 - y1)).flatMap (fun dy =>
    (List.range (x2 - x1)).map (fun dx => f (y1 + dy) (x1 + dx)))

/-- Result dictionary of `error_level_analysis`.  The source's success branch
returns keys `ela_mean`, `ela_std`, `ela_cv`, `inconsistency_score`,
`outlier_regions`, `suspicious`; the failure branch returns only `error` and
`suspicious` (the numeric fields are defaulted to `0` in that case here).
`ela_std` and `ela_cv` are carried squared (`ela_std_sq`, `ela_cv_sq`), see
the module comment. -/
structure ElaSignal where
  ela_mean : ℚ
  ela_std_sq : ℚ
  ela_cv_sq : ℚ
  inconsistency_score : ℚ
  outlier_regions : ℕ
  suspicious : Bool
  error : Option String := none
deriving DecidableEq

/-- Projection of the ELA dictionary onto the fields the aggregator reads. -/
def ElaSignal.toSignal (s : ElaSignal) : DetectorSignal :=
  { suspicious := s.suspicious, error := s.error, skipped := false }

/-- Error map of Error-Level Analysis: absolute difference between the gray
buffer and its re-encoded copy (forensic_analysis.py:45). -/
def elaErrMap (img rcm : Mat) : ℕ → ℕ → ℚ :=
  fun y x => |img.pix y x - rcm.pix y x|

/-- All samples of the error map (the full `ela` array). -/
def elaGlobalVals (img rcm : Mat) : List ℚ :=
  rectVals (elaErrMap img rcm) 0 img.h 0 img.w

/-- Per-region mean errors over the 3×3 region grid, row major
(forensic_analysis.py:57-72): region `(i, j)` is the slice
`ela[i*h//3:(i+1)*h//3, j*w//3:(j+1)*w//3]`. -/
def elaRegionMeans (img rcm : Mat) : List ℚ :=
  (List.range 3).flatMap (fun i => (List.range 3).map (fun j =>
    meanList (rectVals (elaErrMap img rcm) (i * img.h / 3) ((i + 1) * img.h / 3)
      (j * img.w / 3) ((j + 1) * img.w / 3))))

/-- `error_level_analysis` (forensic_analysis.py:22-98).  `recompress q img`
models the JPEG save-at-quality-`q`-and-reload roundtrip (PIL); an
`Except.error` models an exception raised inside the `try` body, answered by
the `except` clause of lines 97-98.  The error map is
`|gray − recompressed|`; the 3×3 region grid uses the source's floor-division
slice bounds; `outlier_regions` counts region means farther than two standard
deviations from the mean of the region means (encoded squared); `suspicious`
is `inconsistency_score > 0.15 ∨ outlier_regions ≥ 1 ∨ cv_score > 0.3`
(line 95), with `cv_score = ela_std / (ela_mean + 1e-10)` compared squared. -/
def error_level_analysis (recompress : ℕ → Mat → Except String Mat)
    (image : Mat) (quality : ℕ) : ElaSignal :=
  match recompress quality image with
  | .error e =>
    { ela_mean := 0, ela_std_sq := 0, ela_cv_sq := 0, inconsistency_score := 0,
      outlier_regions := 0, suspicious := false, error := some e }
  | .ok rcm =>
    let allVals := elaGlobalVals image rcm
    let elaMean := meanList allVals
    let elaStdSq := varList allVals
    let elaCvSq := elaStdSq / (elaMean + 1e-10) ^ 2
    let regionMeans := elaRegionMeans image rcm
    let rmean := meanList regionMeans
    let rvar := varList regionMeans
    let inconsistency := rvar / (rmean + 1e-10)
    let outliers := regionMeans.countP (fun r => decide ((r - rmean) ^ 2 > 4 * rvar))
    { ela_mean := elaMean, ela_std_sq := elaStdSq, ela_cv_sq := elaCvSq,
      inconsistency_score := inconsistency, outlier_regions := outliers,
      suspicious := decide (inconsistency > 0.15) || decide (1 ≤ outliers)
        || decide (elaCvSq > 0.3 ^ 2),
      error := none }

/-- The `try/except` shell shared by every pixel detector: the body either
returns its result dictionary or raises, and the `except Exception` clause
turns the exception into `{'error': str(e), 'suspicious': False}`. -/
def catchSignal (core : Mat → Except String DetectorSignal) (image : Mat) :
    DetectorSignal :=
  match core image with
  | .ok s => s
  | .error e => { suspicious := false, error := some e }

/-- `noise_pattern_analysis` (forensic_analysis.py:101-162): body opaque,
`except` clause at 161-162. -/
def noise_pattern_analysis (core : Mat → Except String DetectorSignal)
    (image : Mat) : DetectorSignal :=
  catchSignal core image

/-- `copy_move_detection` (forensic_analysis.py:165-251): body opaque,
`except` clause at 250-251. -/
def copy_move_detection (core : Mat → Except String DetectorSignal)
    (image : Mat) : DetectorSignal :=
  catchSignal core image

/-- `luminance_gradient_analysis` (forensic_analysis.py:254-313). -/
def luminance_gradient_analysis (core : Mat → Except String DetectorSignal)
    (image : Mat) : DetectorSignal :=
  catchSignal core image

/-- `color_consistency_analysis` (forensic_analysis.py:316-389). -/
def color_consistency_analysis (core : Mat → Except String DetectorSignal)
    (image : Mat) : DetectorSignal :=
  catchSignal core image

/-- `edge_quality_analysis` (forensic_analysis.py:392-453). -/
def edge_quality_analysis (core : Mat → Except String DetectorSignal)
    (image : Mat) : DetectorSignal :=
  catchSignal core image

/-- `frequency_domain_analysis` (forensic_analysis.py:456-518). -/
def frequency_domain_analysis (core : Mat → Except String DetectorSignal)
    (image : Mat) : DetectorSignal :=
  catchSignal core image

/-- `statistical_analysis` (forensic_analysis.py:521-613). -/
def statistical_analysis (core : Mat → Except String DetectorSignal)
    (image : Mat) : DetectorSignal :=
  catchSignal core image

/-- `pixel_neighborhood_analysis` (forensic_analysis.py:616-682). -/
def pixel_neighborhood_analysis (core : Mat → Except String DetectorSignal)
    (image : Mat) : DetectorSignal :=
  catchSignal core image

/-- `advanced_copy_move_detection` (forensic_analysis.py:685-784): lines
700-703 return `{'suspicious': False, 'duplicate_pairs': 0, 'skipped': True}`
when `h * w > 4000000` before any heavy work; otherwise the DCT body runs
under the `except` clause of lines 783-784. -/
def advanced_copy_move_detection (core : Mat → Except String DetectorSignal)
    (image : Mat) : DetectorSignal :=
  if 4000000 < image.h * image.w then
    { suspicious := false, error := none, skipped := true }
  else
    catchSignal core image

/-- `metadata_analysis` (forensic_analysis.py:787-839): operates on the
original byte stream, not the decoded buffer; its `except` clause (838-839)
returns `{'error': str(e), 'suspicious': False, 'has_exif': False}` (the
`has_exif` entry is not read by the aggregator and is not modelled). -/
def metadata_analysis (core : ByteStream → Except String DetectorSignal)
    (file : ByteStream) : DetectorSignal :=
  match core file with
  | .ok s => s
  | .error e => { suspicious := false, error := some e }

/-- The opaque bodies of the ten detectors other than ELA (whose body is
embedded in full above). -/
structure DetectorCores where
  noise : Mat → Except String DetectorSignal
  copyMove : Mat → Except String DetectorSignal
  advanced : Mat → Except String DetectorSignal
  luminance : Mat → Except String DetectorSignal
  color : Mat → Except String DetectorSignal
  edge : Mat → Except String DetectorSignal
  frequency : Mat → Except String DetectorSignal
  statistical : Mat → Except String DetectorSignal
  neighborhood : Mat → Except String DetectorSignal
  metadata : ByteStream → Except String DetectorSignal

/-- The eleven per-detector result dictionaries collected by
`comprehensive_forensic_analysis` (the source's `detailed_results` mapping). -/
structure BankSignals where
  ela : ElaSignal
  noise : DetectorSignal
  copyMove : DetectorSignal
  advanced : DetectorSignal
  luminance : DetectorSignal
  color : DetectorSignal
  edge : DetectorSignal
  frequency : DetectorSignal
  statistical : DetectorSignal
  neighborhood : DetectorSignal
  metadata : DetectorSignal

/-- The signals in the order of the source's `checks` list
(forensic_analysis.py:925-937). -/
def BankSignals.toList (b : BankSignals) : List DetectorSignal :=
  [b.ela.toSignal, b.noise, b.copyMove, b.advanced, b.luminance, b.color,
   b.edge, b.frequency, b.statistical, b.neighborhood, b.metadata]

/-- Display names of the eleven checks, in the source's order. -/
def checkNames : List String :=
  ["ELA", "Noise", "Copy-Move", "Advanced Copy-Move", "Luminance", "Color",
   "Edge", "Frequency Domain", "Statistical Analysis", "Neighborhood Analysis",
   "Metadata"]

/-- `'error' not in str(ela_results) and 'error' not in str(noise_results)`
(forensic_analysis.py:940).  For the two dictionaries in question the
substring `error` occurs in `str(d)` exactly when the `error` key is present:
the success-branch keys (`ela_mean`, `ela_std`, `ela_cv`, `noise_variance`,
`noise_std_variance`, `noise_cv`, `inconsistency_score`, `outlier_regions`,
`suspicious`) and their numeric/boolean values never contain that substring. -/
def aggregateGate (b : BankSignals) : Bool :=
  b.ela.error.isNone && b.noise.error.isNone

/-- The counting loop of forensic_analysis.py:939-943, verbatim: for each of
the eleven checks, the guard re-evaluates the same condition on the ELA and
Noise dictionaries (it does not consult the iterated check), then increments
`total_checks` and, for a suspicious flag, `suspicious_count`.  Returns
`(total_checks, suspicious_count)`. -/
def aggregateCounts (b : BankSignals) : ℕ × ℕ :=
  (b.toList.map (fun s => s.suspicious)).foldl
    (fun acc f =>
      if aggregateGate b then (acc.1 + 1, if f then acc.2 + 1 else acc.2)
      else acc)
    (0, 0)

/-- The confidence ladder of forensic_analysis.py:957-966. -/
def confidenceFor (suspiciousCount : ℕ) : ℚ :=
  if 5 ≤ suspiciousCount then 0.95
  else if 3 ≤ suspiciousCount then 0.85
  else if suspiciousCount = 2 then 0.7
  else if suspiciousCount = 1 then 0.6
  else 0.4

/-- The success-branch return dictionary of `comprehensive_forensic_analysis`
(forensic_analysis.py:993-1013).  `detection_details` is modelled by the
names of the detectors whose `suspicious` flag is set, in the source's
fixed order (the source emits one Arabic sentence per fired detector,
lines 969-991); `bank` models the `detailed_results` mapping. -/
structure ForensicVerdict where
  is_edited : Bool
  confidence : ℚ
  suspicious_count : ℕ
  total_checks : ℕ
  detection_details : List String
  bank : BankSignals

/-- Aggregation step of `comprehensive_forensic_analysis`
(forensic_analysis.py:921-1013): counting loop, `is_edited = suspicious_count
> 0` (line 954), confidence ladder, details list, detailed results. -/
def forensicVerdictOf (b : BankSignals) : ForensicVerdict :=
  let c := aggregateCounts b
  { is_edited := decide (0 < c.2)
    confidence := confidenceFor c.2
    suspicious_count := c.2
    total_checks := c.1
    detection_details := (checkNames.zip b.toList).filterMap
      (fun p => if p.2.suspicious then some p.1 else none)
    bank := b }

/-- Outcome of `comprehensive_forensic_analysis`: either the success-branch
dictionary or the fatal dictionary of lines 1014-1020
(`{'is_edited': False, 'confidence': 0.0, 'error': str(e),
'detection_details': []}`). -/
inductive ForensicResult where
  | fatal (error : String)
  | ok (v : ForensicVerdict)

/-- `is_edited` entry of either outcome dictionary (`False` on the fatal
path, line 1016). -/
def ForensicResult.is_edited : ForensicResult → Bool
  | .fatal _ => false
  | .ok v => v.is_edited

/-- `confidence` entry of either outcome dictionary (`0.0` on the fatal path,
line 1017). -/
def ForensicResult.confidence : ForensicResult → ℚ
  | .fatal _ => 0
  | .ok v => v.confidence

/-- `detection_details` entry of either outcome dictionary (`[]` on the fatal
path, line 1019). -/
def ForensicResult.detection_details : ForensicResult → List String
  | .fatal _ => []
  | .ok _v => _v.detection_details

/-- Whether the fatal `except` branch (lines 1014-1020) was taken. -/
def ForensicResult.isFatal : ForensicResult → Bool
  | .fatal _ => true
  | .ok _ => false

/-- The detector-bank phase of `comprehensive_forensic_analysis`
(forensic_analysis.py:877-916): ELA runs at quality 95 (the source passes the
default), each other detector runs its guarded body, and the advanced
copy-move detector is replaced by the literal skipped dictionary
`{'suspicious': False, 'duplicate_pairs': 0, 'skipped': True}` when the
decoded buffer has more than 4,000,000 pixels (lines 888-894); metadata
analysis reads the original byte stream (line 916). -/
def runBank (recompress : ℕ → Mat → Except String Mat) (cores : DetectorCores)
    (file : ByteStream) (img : Mat) : BankSignals :=
  { ela := error_level_analysis recompress img 95
    noise := noise_pattern_analysis cores.noise img
    copyMove := copy_move_detection cores.copyMove img
    advanced :=
      if 4000000 < img.h * img.w then
        { suspicious := false, error := none, skipped := true }
      else advanced_copy_move_detection cores.advanced img
    luminance := luminance_gradient_analysis cores.luminance img
    color := color_consistency_analysis cores.color img
    edge := edge_quality_analysis cores.edge img
    frequency := frequency_domain_analysis cores.frequency img
    statistical := statistical_analysis cores.statistical img
    neighborhood := pixel_neighborhood_analysis cores.neighborhood img
    metadata := metadata_analysis cores.metadata file }

/-- `comprehensive_forensic_analysis` (forensic_analysis.py:842-1020).
`decode` models the read / `Image.open` / RGB conversion / large-image resize
/ numpy conversion prelude of lines 849-872 (the only part of the `try` body
outside the detectors' own guards that can raise); on its failure the
function's `except` clause (1014-1020) produces the fatal dictionary. -/
def comprehensive_forensic_analysis (decode : ByteStream → Except String Mat)
    (recompress : ℕ → Mat → Except String Mat) (cores : DetectorCores)
    (file : ByteStream) : ForensicResult :=
  match decode file with
  | .error e => .fatal e
  | .ok img => .ok (forensicVerdictOf (runBank recompress cores file img))

/-- The external vision collaborator's parsed opinion, as read out of the
model response in utils.py:498-503 (`is_ai_generated`, `is_photoshopped`,
`is_fake`, `confidence`). -/
structure ExternalVisionOpinion where
  is_ai_generated : Bool
  is_photoshopped : Bool
  is_fake : Bool
  confidence : ℚ
deriving DecidableEq

/-- The final combined booleans and confidence produced by
`check_image_fact_and_ai_async`. -/
structure CombinedDecision where
  is_ai_generated : Bool
  is_photoshopped : Bool
  is_fake : Bool
  confidence : ℚ
deriving DecidableEq

/-- The result-combination step of `check_image_fact_and_ai_async`
(utils.py:513-550).  `is_vintage_photo` models the keyword scan of
utils.py:507-509 over the opinion's free text.  Branch 1 (forensic edited,
lines 521-529); branch 2 (vision flags it, lines 530-534); branch 3
(confidence below the 0.90 bar, or 0.95 for vintage photos, lines 535-543);
branch 4 (authentic, lines 544-547); `is_ai_generated` is taken from the
vision opinion (line 550). -/
def combine_forensic_and_vision (forensic_is_edited : Bool)
    (forensic_confidence : ℚ) (ai : ExternalVisionOpinion)
    (is_vintage_photo : Bool) : CombinedDecision :=
  if forensic_is_edited then
    { is_ai_generated := ai.is_ai_generated
      is_photoshopped := true
      is_fake := true
      confidence :=
        if ai.is_photoshopped || ai.is_fake then
          min 0.98 (max forensic_confidence ai.confidence + 0.1)
        else
          max forensic_confidence 0.65 }
  else if ai.is_photoshopped || ai.is_fake then
    { is_ai_generated := ai.is_ai_generated
      is_photoshopped := ai.is_photoshopped
      is_fake := ai.is_fake
      confidence := max ai.confidence 0.7 }
  else if ai.confidence < 0.90 ∨ (is_vintage_photo = true ∧ ai.confidence < 0.95) then
    { is_ai_generated := ai.is_ai_generated
      is_photoshopped := true
      is_fake := true
      confidence := 0.7 }
  else
    { is_ai_generated := ai.is_ai_generated
      is_photoshopped := false
      is_fake := false
      confidence := ai.confidence }

/-! ## Specification-side definitions

The following definitions transcribe sentences of the specification (not the
source); theorems below compare them with the embedded source functions. -/

/-- Spec §4.3, written from the spec's words: the confidence ladder
`suspicious_count ≥ 5 → 0.95`; `= 3 or 4 → 0.85`; `= 2 → 0.70`;
`= 1 → 0.60`; `= 0 → 0.40`. -/
def specConfidenceLadder (sc : ℕ) : ℚ :=
  if 5 ≤ sc then 0.95
  else if sc = 3 ∨ sc = 4 then 0.85
  else if sc = 2 then 0.7
  else if sc = 1 then 0.6
  else 0.4

/-- Spec §4.3, written from the spec's words: `total_checks` is the count of
detectors that ran without error. -/
def specTotalChecks (b : BankSignals) : ℕ :=
  b.toList.countP (fun s => s.error.isNone)

/-- Spec §4.3, written from the spec's words: `suspicious_count` counts the
suspicious flags among detectors that did not error. -/
def specSuspiciousCount (b : BankSignals) : ℕ :=
  b.toList.countP (fun s => s.error.isNone && s.suspicious)

/-- Spec §7, written from the spec's words: detectors that completed — ran
without error and were not skipped (a `SkippedDetector` is "excluded from
`total_checks`"). -/
def specCompletedChecks (b : BankSignals) : ℕ :=
  b.toList.countP (fun s => s.error.isNone && !s.skipped)

/-- Claim C8's characterization of the ELA flag, written from the claim's
words with threshold `t` for the first disjunct: the coefficient of variation
(std / mean) of the per-region mean errors exceeds `t`, or some region mean
is a >2σ outlier among the region means, or the global error coefficient of
variation exceeds 0.3.  The two CV comparisons are encoded squared
(`std > c·mean ↔ var > c²·mean²`, exact for the non-negative error data the
detector produces). -/
def elaClaimFlagCV (t : ℚ) (recompress : ℕ → Mat → Except String Mat)
    (image : Mat) : Bool :=
  match recompress 95 image with
  | .error _ => false
  | .ok rcm =>
    let rm := elaRegionMeans image rcm
    let g := elaGlobalVals image rcm
    decide (varList rm > t ^ 2 * (meanList rm) ^ 2)
    || decide (1 ≤ rm.countP (fun r => decide ((r - meanList rm) ^ 2 > 4 * varList rm)))
    || decide (varList g > 0.3 ^ 2 * (meanList g) ^ 2)

/-- The amended claim C8, written from the amended sentence: suspicious
exactly when the variance of the per-region mean errors divided by their mean
(the source's `inconsistency_score`, with the source's `1e-10` denominator
guard) exceeds 0.15, or some region mean is a >2σ outlier, or the global
error coefficient of variation `std/(mean + 1e-10)` exceeds 0.3 (second CV
encoded squared, exact for the non-negative error data). -/
def elaAmendedFlag (recompress : ℕ → Mat → Except String Mat)
    (image : Mat) : Bool :=
  match recompress 95 image with
  | .error _ => false
  | .ok rcm =>
    let rm := elaRegionMeans image rcm
    let g := elaGlobalVals image rcm
    decide (varList rm / (meanList rm + 1e-10) > 0.15)
    || decide (1 ≤ rm.countP (fun r => decide ((r - meanList rm) ^ 2 > 4 * varList rm)))
    || decide (varList g > (0.3 * (meanList g + 1e-10)) ^ 2)

/-! ## Concrete fixtures for witnesses and counterexamples -/

/-- A 3×3 gray buffer whose rows are the constant values 90, 100, 110. -/
def imgStep : Mat := ⟨3, 3, fun y _ => 90 + 10 * (y : ℚ)⟩

/-- A 3×3 all-zero gray buffer. -/
def img0 : Mat := ⟨3, 3, fun _ _ => 0⟩

/-- A 2001×2000 buffer (4,002,000 pixels, above the 4-million-pixel skip
threshold while within the 4000-pixel dimension cap of the preprocessor). -/
def bigMat : Mat := ⟨2001, 2000, fun _ _ => 0⟩

/-- A re-encoding stub returning an all-zero image of the same dimensions
(so the error map equals the input image). -/
def rcZero : ℕ → Mat → Except String Mat :=
  fun _ m => .ok ⟨m.h, m.w, fun _ _ => 0⟩

/-- A re-encoding stub that raises. -/
def rcFail : ℕ → Mat → Except String Mat :=
  fun _ _ => .error "division by zero"

/-- A detector body that completes without suspicion. -/
def okCore : Mat → Except String DetectorSignal :=
  fun _ => .ok { suspicious := false }

/-- A detector body that completes and flags suspicion. -/
def okCoreSusp : Mat → Except String DetectorSignal :=
  fun _ => .ok { suspicious := true }

/-- A detector body that raises. -/
def failCore : Mat → Except String DetectorSignal :=
  fun _ => .error "division by zero"

/-- A metadata body that completes without suspicion. -/
def okMeta : ByteStream → Except String DetectorSignal :=
  fun _ => .ok { suspicious := false }

/-- A metadata body that raises. -/
def failMeta : ByteStream → Except String DetectorSignal :=
  fun _ => .error "division by zero"

/-- All detector bodies complete, none suspicious. -/
def coresOk : DetectorCores :=
  ⟨okCore, okCore, okCore, okCore, okCore, okCore, okCore, okCore, okCore, okMeta⟩

/-- Like `coresOk` but the spatial copy-move body raises. -/
def coresCmFail : DetectorCores := { coresOk with copyMove := failCore }

/-- Like `coresOk` but the luminance body flags suspicion. -/
def coresLumSusp : DetectorCores := { coresOk with luminance := okCoreSusp }

/-- All detector bodies raise. -/
def coresFail : DetectorCores :=
  ⟨failCore, failCore, failCore, failCore, failCore, failCore, failCore,
   failCore, failCore, failMeta⟩

/-! ## Helper lemmas -/

/-- First component of the source's counting fold: the gate does not read the
iterated flag, so `total_checks` grows by the list length when the gate holds
and not at all otherwise. -/
lemma gateFoldl_fst (g : Bool) (l : List Bool) (acc : ℕ × ℕ) :
    (l.foldl (fun a f => if g then (a.1 + 1, if f then a.2 + 1 else a.2) else a) acc).1
      = if g then acc.1 + l.length else acc.1 := by
  induction l generalizing acc with
  | nil => cases g <;> simp
  | cons b t ih => cases g <;> simp_all <;> omega

/-- Second component of the source's counting fold: `suspicious_count` is the
number of `true` flags when the gate holds and `acc.2` otherwise. -/
lemma gateFoldl_snd (g : Bool) (l : List Bool) (acc : ℕ × ℕ) :
    (l.foldl (fun a f => if g then (a.1 + 1, if f then a.2 + 1 else a.2) else a) acc).2
      = if g then acc.2 + l.count true else acc.2 := by
  induction l generalizing acc with
  | nil => cases g <;> simp
  | cons b t ih => cases g <;> cases b <;> simp_all [List.count_cons] <;> omega

/-- Closed form of the aggregation counters. -/
lemma aggregateCounts_eq (b : BankSignals) :
    aggregateCounts b
      = (if aggregateGate b then 11 else 0,
         if aggregateGate b then (b.toList.map (fun s => s.suspicious)).count true else 0) := by
  unfold aggregateCounts
  refine Prod.ext ?_ ?_
  · rw [gateFoldl_fst]
    cases h : aggregateGate b <;> simp [BankSignals.toList]
  · rw [gateFoldl_snd]
    cases h : aggregateGate b <;> simp

lemma total_checks_eq (b : BankSignals) :
    (forensicVerdictOf b).total_checks = if aggregateGate b then 11 else 0 := by
  simp [forensicVerdictOf, aggregateCounts_eq]

lemma suspicious_count_eq (b : BankSignals) :
    (forensicVerdictOf b).suspicious_count
      = if aggregateGate b
        then (b.toList.map (fun s => s.suspicious)).count true else 0 := by
  simp [forensicVerdictOf, aggregateCounts_eq]

lemma is_edited_eq (b : BankSignals) :
    (forensicVerdictOf b).is_edited
      = decide (0 < (forensicVerdictOf b).suspicious_count) := by
  simp [forensicVerdictOf]

lemma confidence_eq (b : BankSignals) :
    (forensicVerdictOf b).confidence
      = confidenceFor (forensicVerdictOf b).suspicious_count := by
  simp [forensicVerdictOf]

/-- The source ladder and the spec ladder agree on every count. -/
lemma confidenceFor_eq_spec (n : ℕ) : confidenceFor n = specConfidenceLadder n := by
  unfold confidenceFor specConfidenceLadder
  rcases Nat.lt_or_ge n 5 with h5 | h5
  · rcases Nat.lt_or_ge n 3 with h3 | h3
    · interval_cases n <;> norm_num
    · interval_cases n <;> norm_num
  · simp [h5, Nat.le_of_lt]

/-- Every ladder value is one of the five calibrated constants, positive and
at most 1. -/
lemma confidenceFor_mem (n : ℕ) :
    confidenceFor n ∈ ([0.4, 0.6, 0.7, 0.85, 0.95] : List ℚ)
    ∧ 0 < confidenceFor n ∧ confidenceFor n ≤ 1 := by
  unfold confidenceFor
  split_ifs <;> norm_num

/-- Mean of a list of non-negative rationals is non-negative. -/
lemma meanList_nonneg {xs : List ℚ} (h : ∀ x ∈ xs, 0 ≤ x) : 0 ≤ meanList xs := by
  unfold meanList
  exact div_nonneg (List.sum_nonneg h) (Nat.cast_nonneg _)

/-- Every sample of the ELA error map is non-negative. -/
lemma elaGlobalVals_nonneg (img rcm : Mat) :
    ∀ x ∈ elaGlobalVals img rcm, 0 ≤ x := by
  intro x hx
  unfold elaGlobalVals rectVals elaErrMap at hx
  simp only [List.mem_flatMap, List.mem_map, List.mem_range] at hx
  obtain ⟨dy, -, ⟨dx, -, rfl⟩⟩ := hx
  exact abs_nonneg _

/-! ## Claim theorems -/

/-- C1: for every forensic analysis that completes without a fatal error, the
aggregator sets `is_edited` exactly when `suspicious_count > 0`, and the
reported confidence follows the fixed ladder (≥5 → 0.95, 3-4 → 0.85,
2 → 0.70, 1 → 0.60, 0 → 0.40); in particular when no detector fires,
`is_edited` is `false` and the confidence is exactly 0.40. -/
theorem aggregator_verdict_and_confidence_ladder
    (decode : ByteStream → Except String Mat)
    (recompress : ℕ → Mat → Except String Mat) (cores : DetectorCores)
    (file : ByteStream) (v : ForensicVerdict)
    (h : comprehensive_forensic_analysis decode recompress cores file = .ok v) :
    v.is_edited = decide (0 < v.suspicious_count)
    ∧ v.confidence = specConfidenceLadder v.suspicious_count := by
  unfold comprehensive_forensic_analysis at h
  cases hd : decode file with
  | error e => rw [hd] at h; exact absurd h (by simp)
  | ok img =>
    rw [hd] at h
    obtain rfl : forensicVerdictOf (runBank recompress cores file img) = v := by
      injection h
    exact ⟨is_edited_eq _, by rw [confidence_eq, confidenceFor_eq_spec]⟩

/-- C1 witness: a concrete completing analysis (3×3 zero image, benign
detector bodies). -/
theorem aggregator_verdict_and_confidence_ladder_witness :
    (forensicVerdictOf (runBank rcZero coresOk [] img0)).is_edited
      = decide (0 < (forensicVerdictOf (runBank rcZero coresOk [] img0)).suspicious_count)
    ∧ (forensicVerdictOf (runBank rcZero coresOk [] img0)).confidence
      = specConfidenceLadder
          (forensicVerdictOf (runBank rcZero coresOk [] img0)).suspicious_count :=
  aggregator_verdict_and_confidence_ladder (fun _ => .ok img0) rcZero coresOk [] _ rfl

/-- C9: the counting loop's guard inspects only the ELA and Noise result
dictionaries on all eleven iterations, so `total_checks` is 11 when both are
error-free (counting errored and skipped detectors as completed checks) and
0 otherwise; in the latter case `suspicious_count` is 0 — hence `is_edited`
is `false` even if other detectors flagged suspicion — and in every case
`total_checks` is either 0 or 11. -/
theorem aggregation_loop_gate_only_ela_noise (b : BankSignals) :
    (forensicVerdictOf b).total_checks
      = (if b.ela.error.isNone && b.noise.error.isNone then 11 else 0)
    ∧ (forensicVerdictOf b).suspicious_count
      = (if b.ela.error.isNone && b.noise.error.isNone
         then (b.toList.map (fun s => s.suspicious)).count true else 0)
    ∧ (forensicVerdictOf b).is_edited
      = decide (0 < (forensicVerdictOf b).suspicious_count)
    ∧ ((forensicVerdictOf b).total_checks = 0
        ∨ (forensicVerdictOf b).total_checks = 11) := by
  refine ⟨total_checks_eq b, suspicious_count_eq b, is_edited_eq b, ?_⟩
  rw [total_checks_eq]
  cases aggregateGate b <;> simp

/-- C10: the forensic confidence is 0 (with `is_edited = false`) exactly on
the fatal path, and on every completed analysis it is one of the five ladder
values {0.40, 0.60, 0.70, 0.85, 0.95}; in all cases it lies in [0, 1]. -/
theorem confidence_in_ladder_range (decode : ByteStream → Except String Mat)
    (recompress : ℕ → Mat → Except String Mat) (cores : DetectorCores)
    (file : ByteStream) :
    (((comprehensive_forensic_analysis decode recompress cores file).isFatal = true
        ∧ (comprehensive_forensic_analysis decode recompress cores file).confidence = 0
        ∧ (comprehensive_forensic_analysis decode recompress cores file).is_edited = false)
      ∨ ((comprehensive_forensic_analysis decode recompress cores file).isFatal = false
        ∧ (comprehensive_forensic_analysis decode recompress cores file).confidence
            ∈ ([0.4, 0.6, 0.7, 0.85, 0.95] : List ℚ)
        ∧ 0 < (comprehensive_forensic_analysis decode recompress cores file).confidence))
    ∧ 0 ≤ (comprehensive_forensic_analysis decode recompress cores file).confidence
    ∧ (comprehensive_forensic_analysis decode recompress cores file).confidence ≤ 1 := by
  unfold comprehensive_forensic_analysis
  cases hd : decode file with
  | error e =>
    simp [ForensicResult.isFatal, ForensicResult.confidence, ForensicResult.is_edited]
  | ok img =>
    have hm := confidenceFor_mem
      (forensicVerdictOf (runBank recompress cores file img)).suspicious_count
    constructor
    · right
      refine ⟨rfl, ?_, ?_⟩
      · simpa [ForensicResult.confidence, confidence_eq] using hm.1
      · simpa [ForensicResult.confidence, confidence_eq] using hm.2.1
    · constructor
      · simpa [ForensicResult.confidence, confidence_eq] using le_of_lt hm.2.1
      · simpa [ForensicResult.confidence, confidence_eq] using hm.2.2

/-- C6: a decode failure is answered by the fatal dictionary carrying the
decode error, with `is_edited = false`, confidence 0 and no partial result
(empty details); and the fatal path arises only from a decode failure — every
successfully decoded input completes the analysis. -/
theorem decode_error_only_fatal (decode : ByteStream → Except String Mat)
    (recompress : ℕ → Mat → Except String Mat) (cores : DetectorCores)
    (file : ByteStream) (e : String) :
    (decode file = .error e →
      comprehensive_forensic_analysis decode recompress cores file = .fatal e
      ∧ (comprehensive_forensic_analysis decode recompress cores file).is_edited = false
      ∧ (comprehensive_forensic_analysis decode recompress cores file).confidence = 0
      ∧ (comprehensive_forensic_analysis decode recompress cores file).detection_details = [])
    ∧ ((comprehensive_forensic_analysis decode recompress cores file).isFatal = true →
        ∃ e2, decode file = .error e2) := by
  unfold comprehensive_forensic_analysis
  cases hd : decode file with
  | error e2 =>
    refine ⟨fun h => ?_, fun _ => ⟨e2, rfl⟩⟩
    obtain rfl : e2 = e := by injection h
    simp [ForensicResult.is_edited, ForensicResult.confidence,
      ForensicResult.detection_details]
  | ok img =>
    exact ⟨fun h => by simp at h, fun h => by simp [ForensicResult.isFatal] at h⟩

/-- C6 witness: a concrete undecodable input. -/
theorem decode_error_only_fatal_witness :
    comprehensive_forensic_analysis (fun _ => .error "cannot identify image")
        rcZero coresOk [] = .fatal "cannot identify image"
    ∧ (comprehensive_forensic_analysis (fun _ => .error "cannot identify image")
        rcZero coresOk []).is_edited = false
    ∧ (comprehensive_forensic_analysis (fun _ => .error "cannot identify image")
        rcZero coresOk []).confidence = 0
    ∧ (comprehensive_forensic_analysis (fun _ => .error "cannot identify image")
        rcZero coresOk []).detection_details = [] :=
  (decode_error_only_fatal (fun _ => .error "cannot identify image")
    rcZero coresOk [] "cannot identify image").1 rfl

/-- C3: whenever the forensic verdict says `is_edited = true`, the combined
result reports `is_fake = true` and `is_photoshopped = true` for every
external vision opinion whatsoever (both flags and the confidence are
universally quantified, so in particular an opinion of `is_fake = false` at
confidence 0.99 is overridden), and when the external opinion agrees the
combined confidence is the max of both confidences plus the 0.1 boost,
capped at 0.98. -/
theorem forensic_precedence_overrides_vision (fconf : ℚ)
    (ai : ExternalVisionOpinion) (vintage : Bool) :
    (combine_forensic_and_vision true fconf ai vintage).is_fake = true
    ∧ (combine_forensic_and_vision true fconf ai vintage).is_photoshopped = true
    ∧ ((ai.is_photoshopped || ai.is_fake) = true →
        (combine_forensic_and_vision true fconf ai vintage).confidence
          = min 0.98 (max fconf ai.confidence + 0.1)) := by
  refine ⟨?_, ?_, fun hagree => ?_⟩ <;>
    unfold combine_forensic_and_vision <;>
    simp_all

/-- C3 witness: concrete agreeing opinion, discharging the boost
hypothesis. -/
theorem forensic_precedence_overrides_vision_witness :
    (combine_forensic_and_vision true 0.6 ⟨false, true, true, 0.8⟩ false).is_fake = true
    ∧ (combine_forensic_and_vision true 0.6 ⟨false, true, true, 0.8⟩ false).is_photoshopped = true
    ∧ (combine_forensic_and_vision true 0.6 ⟨false, true, true, 0.8⟩ false).confidence
        = min 0.98 (max 0.6 0.8 + 0.1) := by
  have h := forensic_precedence_overrides_vision 0.6 ⟨false, true, true, 0.8⟩ false
  exact ⟨h.1, h.2.1, h.2.2 rfl⟩

/-- C7: when neither the forensic verdict (`is_edited = false`) nor the
external opinion (both flags `false`) signals editing, the assembler declares
the image edited at confidence 0.70 exactly when the external confidence is
below 0.90 (below 0.95 for photos the opinion characterizes as
vintage/aged), and authentic at the external confidence otherwise. -/
theorem low_confidence_defaults_to_edited (fconf : ℚ)
    (ai : ExternalVisionOpinion) (vintage : Bool)
    (hp : ai.is_photoshopped = false) (hf : ai.is_fake = false) :
    (combine_forensic_and_vision false fconf ai vintage).is_fake
      = decide (ai.confidence < 0.90 ∨ (vintage = true ∧ ai.confidence < 0.95))
    ∧ (combine_forensic_and_vision false fconf ai vintage).is_photoshopped
      = decide (ai.confidence < 0.90 ∨ (vintage = true ∧ ai.confidence < 0.95))
    ∧ (combine_forensic_and_vision false fconf ai vintage).confidence
      = (if ai.confidence < 0.90 ∨ (vintage = true ∧ ai.confidence < 0.95)
         then 0.7 else ai.confidence) := by
  unfold combine_forensic_and_vision
  by_cases hc : ai.confidence < 0.90 ∨ (vintage = true ∧ ai.confidence < 0.95) <;>
    simp [hp, hf, hc]

/-- C7 witness: concrete non-signalling opinion below the bar. -/
theorem low_confidence_defaults_to_edited_witness :
    (combine_forensic_and_vision false 0.4 ⟨false, false, false, 0.5⟩ false).is_fake
      = decide ((0.5 : ℚ) < 0.90 ∨ (false = true ∧ (0.5 : ℚ) < 0.95))
    ∧ (combine_forensic_and_vision false 0.4 ⟨false, false, false, 0.5⟩ false).is_photoshopped
      = decide ((0.5 : ℚ) < 0.90 ∨ (false = true ∧ (0.5 : ℚ) < 0.95))
    ∧ (combine_forensic_and_vision false 0.4 ⟨false, false, false, 0.5⟩ false).confidence
      = (if (0.5 : ℚ) < 0.90 ∨ (false = true ∧ (0.5 : ℚ) < 0.95)
         then 0.7 else 0.5) :=
  low_confidence_defaults_to_edited 0.4 ⟨false, false, false, 0.5⟩ false rfl rfl

/-- C2 (code bug): evaluation of the aggregation at the failing inputs.  With
ELA and Noise error-free but the spatial copy-move body raising, the code
reports `total_checks = 11` although only 10 detectors ran without error
(the loop's guard, forensic_analysis.py:940, never inspects the iterated
check's own result).  Dually, with the ELA body raising and the luminance
detector flagging suspicion, the code reports `suspicious_count = 0` and
`is_edited = false` although one non-errored detector flagged. -/
theorem total_checks_miscount_at_errored_detector :
    (forensicVerdictOf (runBank rcZero coresCmFail [] img0)).total_checks = 11
    ∧ specTotalChecks (runBank rcZero coresCmFail [] img0) = 10
    ∧ (forensicVerdictOf (runBank rcFail coresLumSusp [] img0)).suspicious_count = 0
    ∧ (forensicVerdictOf (runBank rcFail coresLumSusp [] img0)).is_edited = false
    ∧ specSuspiciousCount (runBank rcFail coresLumSusp [] img0) = 1 := by
  have hg1 : aggregateGate (runBank rcZero coresCmFail [] img0) = true := rfl
  have hg2 : aggregateGate (runBank rcFail coresLumSusp [] img0) = false := rfl
  have hsc : (forensicVerdictOf (runBank rcFail coresLumSusp [] img0)).suspicious_count
      = 0 := by
    rw [suspicious_count_eq, hg2]
    simp
  refine ⟨?_, rfl, hsc, ?_, rfl⟩
  · rw [total_checks_eq, hg1]
    simp
  · rw [is_edited_eq, hsc]
    rfl

/-- C4: each of the eleven detectors answers an internal failure of its body
with an error-marked, non-suspicious signal instead of propagating the
exception, and such failures never abort the bank: the analysis still
completes (non-fatally).  The hypotheses make every body raise with message
`e` and keep the image below the size at which the advanced detector is
policy-skipped instead of run. -/
theorem detector_failures_yield_error_signals
    (decode : ByteStream → Except String Mat)
    (recompress : ℕ → Mat → Except String Mat) (cores : DetectorCores)
    (img : Mat) (file : ByteStream) (e : String)
    (h0 : recompress 95 img = .error e)
    (h1 : cores.noise img = .error e) (h2 : cores.copyMove img = .error e)
    (h3 : cores.advanced img = .error e) (h4 : cores.luminance img = .error e)
    (h5 : cores.color img = .error e) (h6 : cores.edge img = .error e)
    (h7 : cores.frequency img = .error e) (h8 : cores.statistical img = .error e)
    (h9 : cores.neighborhood img = .error e) (h10 : cores.metadata file = .error e)
    (hsize : img.h * img.w ≤ 4000000)
    (hdec : decode file = .ok img) :
    (error_level_analysis recompress img 95).error = some e
    ∧ (error_level_analysis recompress img 95).suspicious = false
    ∧ noise_pattern_analysis cores.noise img = ⟨false, some e, false⟩
    ∧ copy_move_detection cores.copyMove img = ⟨false, some e, false⟩
    ∧ advanced_copy_move_detection cores.advanced img = ⟨false, some e, false⟩
    ∧ luminance_gradient_analysis cores.luminance img = ⟨false, some e, false⟩
    ∧ color_consistency_analysis cores.color img = ⟨false, some e, false⟩
    ∧ edge_quality_analysis cores.edge img = ⟨false, some e, false⟩
    ∧ frequency_domain_analysis cores.frequency img = ⟨false, some e, false⟩
    ∧ statistical_analysis cores.statistical img = ⟨false, some e, false⟩
    ∧ pixel_neighborhood_analysis cores.neighborhood img = ⟨false, some e, false⟩
    ∧ metadata_analysis cores.metadata file = ⟨false, some e, false⟩
    ∧ (comprehensive_forensic_analysis decode recompress cores file).isFatal
        = false := by
  have hnb : ¬ 4000000 < img.h * img.w := by omega
  refine ⟨?_, ?_, ?_, ?_, ?_, ?_, ?_, ?_, ?_, ?_, ?_, ?_, ?_⟩
  · simp [error_level_analysis, h0]
  · simp [error_level_analysis, h0]
  · simp [noise_pattern_analysis, catchSignal, h1]
  · simp [copy_move_detection, catchSignal, h2]
  · simp [advanced_copy_move_detection, catchSignal, h3, hnb]
  · simp [luminance_gradient_analysis, catchSignal, h4]
  · simp [color_consistency_analysis, catchSignal, h5]
  · simp [edge_quality_analysis, catchSignal, h6]
  · simp [frequency_domain_analysis, catchSignal, h7]
  · simp [statistical_analysis, catchSignal, h8]
  · simp [pixel_neighborhood_analysis, catchSignal, h9]
  · simp [metadata_analysis, h10]
  · simp [comprehensive_forensic_analysis, hdec, ForensicResult.isFatal]

/-- C4 witness: all bodies raising "division by zero" on a 3×3 image. -/
theorem detector_failures_yield_error_signals_witness :
    (error_level_analysis rcFail img0 95).error = some "division by zero"
    ∧ (error_level_analysis rcFail img0 95).suspicious = false
    ∧ noise_pattern_analysis coresFail.noise img0
        = ⟨false, some "division by zero", false⟩
    ∧ copy_move_detection coresFail.copyMove img0
        = ⟨false, some "division by zero", false⟩
    ∧ advanced_copy_move_detection coresFail.advanced img0
        = ⟨false, some "division by zero", false⟩
    ∧ luminance_gradient_analysis coresFail.luminance img0
        = ⟨false, some "division by zero", false⟩
    ∧ color_consistency_analysis coresFail.color img0
        = ⟨false, some "division by zero", false⟩
    ∧ edge_quality_analysis coresFail.edge img0
        = ⟨false, some "division by zero", false⟩
    ∧ frequency_domain_analysis coresFail.frequency img0
        = ⟨false, some "division by zero", false⟩
    ∧ statistical_analysis coresFail.statistical img0
        = ⟨false, some "division by zero", false⟩
    ∧ pixel_neighborhood_analysis coresFail.neighborhood img0
        = ⟨false, some "division by zero", false⟩
    ∧ metadata_analysis coresFail.metadata []
        = ⟨false, some "division by zero", false⟩
    ∧ (comprehensive_forensic_analysis (fun _ => .ok img0) rcFail coresFail []).isFatal
        = false :=
  detector_failures_yield_error_signals (fun _ => .ok img0) rcFail coresFail img0 []
    "division by zero" rfl rfl rfl rfl rfl rfl rfl rfl rfl rfl rfl (by decide) rfl

/-- C5 (amended): for every decoded image above 4,000,000 pixels the advanced
copy-move slot records the explicit skipped dictionary (`suspicious = false`,
`skipped = true`, no error marker) and the analysis still completes; however
— contrary to the original claim — the skipped detector is not excluded from
`total_checks`: whenever the ELA and Noise results are error-free,
`total_checks` is the full 11, the skipped check included. -/
theorem oversized_skip_amended (decode : ByteStream → Except String Mat)
    (recompress : ℕ → Mat → Except String Mat) (cores : DetectorCores)
    (file : ByteStream) (img : Mat)
    (hdec : decode file = .ok img) (hbig : 4000000 < img.h * img.w) :
    (runBank recompress cores file img).advanced
      = { suspicious := false, error := none, skipped := true }
    ∧ comprehensive_forensic_analysis decode recompress cores file
      = .ok (forensicVerdictOf (runBank recompress cores file img))
    ∧ ((runBank recompress cores file img).ela.error = none →
       (runBank recompress cores file img).noise.error = none →
       (forensicVerdictOf (runBank recompress cores file img)).total_checks = 11) := by
  refine ⟨?_, ?_, ?_⟩
  · simp [runBank, hbig]
  · simp [comprehensive_forensic_analysis, hdec]
  · intro he hn
    rw [total_checks_eq]
    simp [aggregateGate, he, hn]

/-- C5 witness: the 2001×2000 image with benign detector bodies. -/
theorem oversized_skip_amended_witness :
    (runBank rcZero coresOk [] bigMat).advanced
      = { suspicious := false, error := none, skipped := true }
    ∧ comprehensive_forensic_analysis (fun _ => .ok bigMat) rcZero coresOk []
      = .ok (forensicVerdictOf (runBank rcZero coresOk [] bigMat))
    ∧ (forensicVerdictOf (runBank rcZero coresOk [] bigMat)).total_checks = 11 := by
  have h := oversized_skip_amended (fun _ => .ok bigMat) rcZero coresOk [] bigMat
    rfl (by decide)
  exact ⟨h.1, h.2.1, h.2.2 rfl rfl⟩

/-- C5 counterexample (against the claim as stated): on the oversized image
the advanced detector is skipped (marker set, no error), yet the code's
`total_checks` is 11 while only 10 detectors completed without being
skipped — the skipped detector is counted, not excluded. -/
theorem oversized_skip_counted_counterexample :
    (runBank rcZero coresOk [] bigMat).advanced.skipped = true
    ∧ (runBank rcZero coresOk [] bigMat).advanced.error = none
    ∧ (runBank rcZero coresOk [] bigMat).advanced.suspicious = false
    ∧ (forensicVerdictOf (runBank rcZero coresOk [] bigMat)).total_checks = 11
    ∧ specCompletedChecks (runBank rcZero coresOk [] bigMat) = 10 := by
  have hg : aggregateGate (runBank rcZero coresOk [] bigMat) = true := rfl
  refine ⟨rfl, rfl, rfl, ?_, rfl⟩
  rw [total_checks_eq, hg]
  simp

/-- C8 (amended): with a successful quality-95 re-encoding, the ELA detector
flags suspicious exactly when the variance of the per-region mean errors
divided by their mean (the index of dispersion, with the source's `1e-10`
denominator guard) exceeds 0.15, or some region's mean is a >2σ outlier
among the region means, or the global error coefficient of variation exceeds
0.3. -/
theorem ela_suspicious_amended (recompress : ℕ → Mat → Except String Mat)
    (image rcm : Mat) (h : recompress 95 image = .ok rcm) :
    (error_level_analysis recompress image 95).suspicious
      = elaAmendedFlag recompress image := by
  unfold error_level_analysis elaAmendedFlag
  rw [h]
  have hm : 0 ≤ meanList (elaGlobalVals image rcm) :=
    meanList_nonneg (elaGlobalVals_nonneg image rcm)
  have hpos : (0 : ℚ) < meanList (elaGlobalVals image rcm) + 1e-10 :=
    add_pos_of_nonneg_of_pos hm (by norm_num)
  dsimp only
  congr 1
  rw [decide_eq_decide, gt_iff_lt, gt_iff_lt, lt_div_iff₀ (pow_pos hpos 2), mul_pow]

/-- C8 witness for the amended theorem: the step image under the zero
re-encoding stub. -/
theorem ela_suspicious_amended_witness :
    (error_level_analysis rcZero imgStep 95).suspicious
      = elaAmendedFlag rcZero imgStep :=
  ela_suspicious_amended rcZero imgStep ⟨3, 3, fun _ _ => 0⟩ rfl

/-- C8 counterexample (against the claim as stated): on the 3×3 step image
(region means 90,90,90,100,100,100,110,110,110 under a re-encoding that
returns zeros) the detector flags suspicious, yet the claim's formula is
false at its most sensitive threshold 0.15 — the coefficient of variation of
the region means is √(200/3)/100 ≈ 0.082 < 0.15 (so also below every
threshold in the claimed 0.15–0.3 range), no region is a >2σ outlier, and
the global CV is likewise ≈ 0.082 ≤ 0.3.  The detector fires because its
`inconsistency_score` is the variance over the mean (≈ 0.67 > 0.15), not the
coefficient of variation. -/
theorem ela_cv_claim_counterexample :
    (error_level_analysis rcZero imgStep 95).suspicious = true
    ∧ elaClaimFlagCV 0.15 rcZero imgStep = false := by
  constructor
  · norm_num [error_level_analysis, rcZero, imgStep, elaGlobalVals, elaRegionMeans,
      elaErrMap, rectVals, meanList, varList, List.range_succ, List.flatMap_cons,
      List.flatMap_nil, List.countP_cons, List.countP_nil]
  · norm_num [elaClaimFlagCV, rcZero, imgStep, elaGlobalVals, elaRegionMeans,
      elaErrMap, rectVals, meanList, varList, List.range_succ, List.flatMap_cons,
      List.flatMap_nil, List.countP_cons, List.countP_nil]

end ImageFactCheck
